import Mathlib

/-!
# Verification of the ChatBot back-end ingestion-and-retrieval core

Shallow embedding of the Python sources under `core/` of the repository:

* `core/services/embedding_service.py` — `normalize_vector`, `EmbeddingService`
  (`embed_single`, `embed_chunks`, `clear_cache`);
* `core/services/chunker_service.py` — `generate_title`, `Chunker`
  (`chunk_text`, `chunk_with_titles`);
* `core/services/storage_service.py` — `KnowledgeStore.save_chunks`,
  `delete_by_source`;
* `core/services/vector_search_service.py` — `VectorSearchService.search`;
* `core/services/pdf_processor_service.py` — `PDFProcessorService.process_pdf`;
* `core/views.py` — the `ask` view.

External collaborators (MongoDB, the Gemini embedding/generation provider,
`math.sqrt`, the langchain text splitter, pdfplumber) are passed in as
function parameters of the embedded operations, so every definition is a
computable Lean function of the code's inputs plus those oracles.
Machine floats are modelled as exact rationals; `math.sqrt` is modelled by
a parameter constrained (in theorem hypotheses) to be the exact nonnegative
square root.
-/

namespace ChatBot

/-! ## Python string helpers

Python `str.strip()` and the regex class `\s` treat the six ASCII whitespace
characters below as whitespace (they additionally match some Unicode
whitespace; every input considered in this development is ASCII). -/

/-- Characters that Python's `str.strip()` / regex `\s` treat as whitespace
(ASCII fragment). -/
def pyWhitespace (c : Char) : Bool :=
  c = ' ' || c = '\t' || c = '\n' || c = '\r' || c = '\x0b' || c = '\x0c'

/-- Python `s.strip()` on a list of characters. -/
def stripChars (l : List Char) : List Char :=
  ((l.dropWhile pyWhitespace).reverse.dropWhile pyWhitespace).reverse

/-- Helper for `collapseWS`: the flag records whether the previous character
belonged to a whitespace run (whose single replacement space has already been
emitted). -/
def collapseWSAux : Bool → List Char → List Char
  | _, [] => []
  | prevWS, c :: rest =>
    if pyWhitespace c then
      if prevWS then collapseWSAux true rest
      else ' ' :: collapseWSAux true rest
    else c :: collapseWSAux false rest

/-- Python `re.sub(r'\s+', ' ', s)`: each maximal run of whitespace becomes a
single space. -/
def collapseWS (l : List Char) : List Char := collapseWSAux false l

/-- Python `s.strip()` on `String`. -/
def pyStrip (s : String) : String := String.mk (stripChars s.toList)

/-- Python `s.rfind(' ')`: index of the last space character, `-1` if there is
none. -/
def rfindSpaceAux : List Char → Nat → Int → Int
  | [], _, best => best
  | c :: rest, i, best =>
    rfindSpaceAux rest (i + 1) (if c = ' ' then Int.ofNat i else best)

/-- Python `s.rfind(' ')`. -/
def rfindSpace (l : List Char) : Int := rfindSpaceAux l 0 (-1)

/-! ## `core/services/embedding_service.py` — `normalize_vector`

The Python loop `squared_sum = squared_sum + number * number` with
`number = float(value) if value else 0.0`; on numbers the conditional is the
identity (`float(0) = 0.0`), so the coercion disappears over `ℚ`. -/

/-- The `squared_sum` accumulator loop of `normalize_vector`. -/
def squaredSum (values : List ℚ) : ℚ :=
  values.foldl (fun acc v => acc + v * v) 0

/-- Embedding of `normalize_vector(values)`.

The Python code computes `length = math.sqrt(squared_sum)`; the call to
`math.sqrt` is modelled by the parameter `length`, which the theorems
constrain by `0 ≤ length ∧ length * length = squaredSum values` (the exact
nonnegative square root). If the length is zero the function returns an
all-zero list of the same length, otherwise each component divided by the
length. -/
def normalize_vector (values : List ℚ) (length : ℚ) : List ℚ :=
  if length = 0 then values.map (fun _ => 0)
  else values.map (fun v => v / length)

/-! ## `core/services/chunker_service.py` — `generate_title` -/

/-- Sentence terminators recognised by the regex `^[^.!?]+[.!?]`. -/
def isTerminator (c : Char) : Bool := c = '.' || c = '!' || c = '?'

/-- Embedding of `re.match(r'^[^.!?]+[.!?]', cleaned)` followed by
`.group(0).strip()` on a match, or the whole text on no match: the greedy
`[^.!?]+` consumes the maximal nonempty run of non-terminators, then `[.!?]`
the first terminator.  The regex fails (whole text used) when the text starts
with a terminator or contains none. -/
def firstSentenceOf (cleaned : List Char) : List Char :=
  let pre := cleaned.takeWhile (fun c => !isTerminator c)
  if pre.length = 0 ∨ pre.length = cleaned.length then cleaned
  else stripChars (cleaned.take (pre.length + 1))

/-- Embedding of `generate_title(text, max_length=50)`. -/
def generate_title (text : List Char) (maxLength : Nat := 50) : List Char :=
  if text = [] then "Untitled".toList
  else
    let cleaned := collapseWS (stripChars text)
    if cleaned = [] then "Untitled".toList
    else
      let firstSentence := firstSentenceOf cleaned
      if maxLength < firstSentence.length then
        let title0 := stripChars (firstSentence.take maxLength)
        let lastSpace := rfindSpace title0
        let title1 :=
          if (maxLength / 2 : Int) < lastSpace then title0.take lastSpace.toNat
          else title0
        title1 ++ "...".toList
      else firstSentence

/-- `generate_title` on `String` (the Python functions pass `str` values). -/
def generateTitleStr (s : String) (maxLength : Nat := 50) : String :=
  String.mk (generate_title s.toList maxLength)

/-! ## Python exceptions -/

/-- Python exceptions raised (and sometimes caught) by the embedded code. -/
inductive PyErr
  | typeError (msg : String)
  | valueError (msg : String)
  | attributeError (msg : String)
deriving Repr, DecidableEq

/-! ## `core/services/chunker_service.py` — `Chunker`

`RecursiveCharacterTextSplitter.split_text` is an external library call,
modelled by the parameter `split`. -/

/-- `Chunker.chunk_text` returns either the Python dict `{"error": msg}` or a
list of chunks. -/
inductive ChunkTextResult
  | errorDict (msg : String)
  | chunks (cs : List String)
deriving Repr, DecidableEq

/-- Embedding of `Chunker.chunk_text(text)`. -/
def chunk_text (split : String → List String) (text : String) : ChunkTextResult :=
  if text = "" then .errorDict "Cannot chunk empty text"
  else if pyStrip text = "" then .errorDict "Cannot chunk empty text"
  else
    let chunks := split text
    if chunks = [] then .errorDict "No chunks generated from text"
    else .chunks chunks

/-- `Chunker.chunk_with_titles` returns either the error dict passed through
from `chunk_text`, or the tuple `(chunks, titles)`. -/
inductive ChunkTitlesResult
  | errorDict (msg : String)
  | pair (chunks titles : List String)
deriving Repr, DecidableEq

/-- Embedding of `Chunker.chunk_with_titles(text)`. -/
def chunk_with_titles (split : String → List String) (text : String) :
    ChunkTitlesResult :=
  match chunk_text split text with
  | .errorDict msg => .errorDict msg
  | .chunks cs => .pair cs (cs.map (fun c => generateTitleStr c))

/-- Python tuple unpacking `chunks, titles = r` as performed by
`process_pdf`.  Unpacking iterates the right-hand side: a pair yields its two
components, while iterating the dict `{"error": msg}` yields its single key,
so unpacking it into two variables raises
`ValueError: not enough values to unpack (expected 2, got 1)`. -/
def unpackPair : ChunkTitlesResult → Except PyErr (List String × List String)
  | .errorDict _ =>
    .error (.valueError "not enough values to unpack (expected 2, got 1)")
  | .pair cs ts => .ok (cs, ts)

/-! ## `core/services/embedding_service.py` — `EmbeddingService`

External collaborators, passed as parameters: `hashText` models
`_hash_text` (the SHA-256 hex digest of the text — only its determinism
matters below); `provider taskType text` models `genai.embed_content`, with
`.error msg` for a raised exception; `sqrtOf` models `math.sqrt` as in
`normalize_vector` above. -/

/-- The `_cache` dictionary of an `EmbeddingService` instance: an association
list from cache key to stored normalized vector.  Lookups take the most
recent binding, matching dict-assignment overwrite. -/
structure EmbState where
  cache : List (String × List ℚ) := []
deriving Repr, DecidableEq

/-- Result of one `embed_single` call: the returned value (a vector, or the
`{"error": str(e)}` dict), the updated service state, and how many calls were
made to the external embedding provider (0 or 1). -/
structure EmbedOutcome where
  result : Except String (List ℚ)
  state : EmbState
  providerCalls : Nat
deriving Repr

/-- Embedding of `EmbeddingService.embed_single(text, task_type)`. -/
def embed_single (hashText : String → String)
    (provider : String → String → Except String (List ℚ)) (sqrtOf : ℚ → ℚ)
    (st : EmbState) (text : String)
    (taskType : String := "retrieval_document") : EmbedOutcome :=
  let cacheKey := hashText text
  match st.cache.lookup cacheKey with
  | some savedEmbedding => ⟨.ok savedEmbedding, st, 0⟩
  | none =>
    match provider taskType text with
    | .error e => ⟨.error e, st, 1⟩
    | .ok rawEmbedding =>
      let normalized := normalize_vector rawEmbedding (sqrtOf (squaredSum rawEmbedding))
      ⟨.ok normalized, ⟨(cacheKey, normalized) :: st.cache⟩, 1⟩

/-- Embedding of `EmbeddingService.clear_cache()`. -/
def clear_cache (_ : EmbState) : EmbState := ⟨[]⟩

/-- Embedding of `EmbeddingService.embed_chunks(chunks, task_type)`: maps
`embed_single` over the chunks in order, threading the cache; returns the
result list (which mixes vectors and error values exactly as the Python list
does), the final state, and the total number of provider calls. -/
def embed_chunks (hashText : String → String)
    (provider : String → String → Except String (List ℚ)) (sqrtOf : ℚ → ℚ)
    (st : EmbState) (chunks : List String)
    (taskType : String := "retrieval_document") :
    List (Except String (List ℚ)) × EmbState × Nat :=
  match chunks with
  | [] => ([], st, 0)
  | c :: rest =>
    let out := embed_single hashText provider sqrtOf st c taskType
    let (results, st2, calls) :=
      embed_chunks hashText provider sqrtOf out.state rest taskType
    (out.result :: results, st2, out.providerCalls + calls)

/-! ## `core/services/storage_service.py` — `KnowledgeStore`

MongoDB is modelled as a list of persisted `KnowledgeChunk` records,
threaded explicitly through `save_chunks`.  The external effects are
parameters in `StoreEnv`: whether the delete round-trip succeeds, whether
`chunk_object.save()` succeeds for the chunk at loop index `i`, and the value
of `int(time.time() * 1000000)` at the start of the insert loop. -/

/-- A persisted `KnowledgeChunk` document (`core/documents.py`). -/
structure ChunkRecord where
  chunkId : Nat
  title : Option String
  text : String
  embedding : List ℚ
  sourceType : String
  sourceName : String
  sourceUrl : Option String
deriving Repr, DecidableEq

/-- The response dict of `save_chunks`: `{"saved_count": n}` on success,
`{"error": msg}` on validation failure, `{"error": msg, "saved_count": n}` on
a partial save failure. -/
structure SaveResponse where
  error : Option String := none
  saved_count : Option Nat := none
deriving Repr, DecidableEq

/-- External effects of one `save_chunks` call. -/
structure StoreEnv where
  deleteOk : Bool := true
  saveOk : Nat → Bool := fun _ => true
  nowMicros : Nat := 0

/-- Python truthiness of an optional string argument (`None` and `""` are
falsy). -/
def pyTruthyStr : Option String → Bool
  | none => false
  | some s => s ≠ ""

/-- Python truthiness of the optional `titles` list (`None` and `[]` are
falsy). -/
def pyTruthyList : Option (List String) → Bool
  | none => false
  | some l => l ≠ []

/-- Source-identity resolution shared by the delete branch of `save_chunks`
and `delete_by_source`: match by `sourceUrl` when one is (truthily) given,
else by the `(sourceType, sourceName)` pair. -/
def matchesIdentity (sourceUrl : Option String) (sourceType sourceName : String)
    (r : ChunkRecord) : Bool :=
  if pyTruthyStr sourceUrl then r.sourceUrl == sourceUrl
  else r.sourceType == sourceType && r.sourceName == sourceName

/-- The record built at loop index `i` of the insert loop:
`unique_id = int(time.time() * 1000000) + i`, `title = titles[i] if titles
else None`.  The `get?`/`getD` totalizations are only exercised for an
in-range `i` (the loop runs over `range(len(chunks))` and validation has
pinned the other lengths). -/
def mkRecord (nowMicros : Nat) (chunks : List String)
    (embeddings : List (List ℚ)) (titles : Option (List String))
    (sourceType sourceName : String) (sourceUrl : Option String) (i : Nat) :
    ChunkRecord where
  chunkId := nowMicros + i
  title := if pyTruthyList titles then (titles.getD []).get? i else none
  text := (chunks.get? i).getD ""
  embedding := (embeddings.get? i).getD []
  sourceType := sourceType
  sourceName := sourceName
  sourceUrl := sourceUrl

/-- The `for i in range(len(chunks))` insert loop of `save_chunks`.  Each
iteration either persists record `i` and continues, or — when
`chunk_object.save()` raises — returns `(500, {"error": ..., "saved_count":
saved_count})` at once.  Because the loop returns on the first failure, the
`saved_count` counter always equals the loop index `i`. -/
def insertLoop (env : StoreEnv) (mk : Nat → ChunkRecord) :
    Nat → Nat → List ChunkRecord → (Nat × SaveResponse) × List ChunkRecord
  | 0, i, store => (((200 : Nat), { saved_count := some i }), store)
  | remaining + 1, i, store =>
    if env.saveOk i then insertLoop env mk remaining (i + 1) (store ++ [mk i])
    else
      (((500 : Nat),
        { error := some ("Failed to save chunk " ++ toString i),
          saved_count := some i }), store)

/-- Embedding of `KnowledgeStore.save_chunks(chunks, embeddings, source_type,
source_name, titles, source_url)`.  Returns the Python return value — the
tuple `(status_code, response_dict)` — together with the store contents after
the call.  The delete step is `try`/`except`-wrapped in the source: on a
failed delete (`env.deleteOk = false`) the store is left as-is and the insert
loop proceeds anyway. -/
def save_chunks (env : StoreEnv) (store : List ChunkRecord)
    (chunks : List String) (embeddings : List (List ℚ))
    (sourceType sourceName : String) (titles : Option (List String) := none)
    (sourceUrl : Option String := none) :
    (Nat × SaveResponse) × List ChunkRecord :=
  if chunks = [] ∨ embeddings = [] then
    (((400 : Nat), { error := some "chunks and embeddings cannot be empty" }),
      store)
  else if chunks.length ≠ embeddings.length then
    (((400 : Nat),
      { error := some ("Chunks (" ++ toString chunks.length
          ++ ") and embeddings (" ++ toString embeddings.length
          ++ ") length mismatch") }), store)
  else if pyTruthyList titles ∧ (titles.getD []).length ≠ chunks.length then
    (((400 : Nat),
      { error := some ("Titles (" ++ toString (titles.getD []).length
          ++ ") and chunks (" ++ toString chunks.length
          ++ ") length mismatch") }), store)
  else
    let store1 :=
      if env.deleteOk then
        store.filter (fun r => !matchesIdentity sourceUrl sourceType sourceName r)
      else store
    insertLoop env
      (mkRecord env.nowMicros chunks embeddings titles sourceType sourceName sourceUrl)
      chunks.length 0 store1

/-! ## `core/services/pdf_processor_service.py` — `PDFProcessorService`

`extract_text` delegates to pdfplumber (external); `process_pdf` is modelled
from the extracted text onward.  `split` is the langchain splitter inside the
`Chunker`; `hashText`/`provider`/`sqrtOf` drive the `EmbeddingService` as
above. -/

/-- What Python stores when an element of the `embed_chunks` result list
reaches `list(embeddings[i])` in `save_chunks`: for a vector, the vector
itself.  An `{"error": ...}` dict there would yield the list of its keys and
fail MongoEngine field validation; no claim below exercises that case, and it
is modelled as an empty embedding list. -/
def embValueOrNil : Except String (List ℚ) → List ℚ
  | .ok v => v
  | .error _ => []

/-- The value of the `"chunks_created"` key of the dict returned by
`process_pdf`: the code assigns it the *entire* `(status_code,
response_dict)` tuple returned by `save_chunks`. -/
structure ProcessResult where
  chunks_created : Nat × SaveResponse
  source_name : String
deriving Repr, DecidableEq

/-- Embedding of `PDFProcessorService.process_pdf(pdf_path, source_name)`
from the point where `extract_text` has produced `text`.  `.error e` models
an uncaught Python exception. -/
def process_pdf (split : String → List String) (hashText : String → String)
    (provider : String → String → Except String (List ℚ)) (sqrtOf : ℚ → ℚ)
    (embSt : EmbState) (env : StoreEnv) (store : List ChunkRecord)
    (text : String) (sourceName : String) :
    Except PyErr (ProcessResult × List ChunkRecord) :=
  if pyStrip text = "" then
    .error (.valueError "PDF appears to be empty or contains no text we can read.")
  else
    match unpackPair (chunk_with_titles split text) with
    | .error e => .error e
    | .ok (chunks, titles) =>
      let (embedResults, _, _) := embed_chunks hashText provider sqrtOf embSt chunks
      let embeddings := embedResults.map embValueOrNil
      let (chunksSaved, store2) :=
        save_chunks env store chunks embeddings "pdf" sourceName (some titles) none
      .ok ({ chunks_created := chunksSaved, source_name := sourceName }, store2)

/-! ## `core/services/vector_search_service.py` — `VectorSearchService` -/

/-- Constructor arguments of `VectorSearchService`. -/
structure SearchConfig where
  vectorIndexName : String
  vectorLimit : Nat := 5
  numCandidates : Nat := 100
  minScore : ℚ := 1 / 5
deriving Repr, DecidableEq

/-- The `$vectorSearch` stage of the aggregation pipeline built by `search`
(the `$project` stage selects the fields carried by `ScoredDoc`). -/
structure SearchPipeline where
  index : String
  queryVector : List ℚ
  numCandidates : Nat
  limit : Nat
deriving Repr, DecidableEq

/-- A candidate document as shaped by the `$project` stage: `title`, `text`,
and the `vectorSearchScore` meta field (each may be absent in a stored
document, hence `Option`). -/
structure ScoredDoc where
  title : Option String := none
  text : Option String := none
  score : Option ℚ := none
deriving Repr, DecidableEq

/-- Embedding of `VectorSearchService.search(query_embedding)`.
`aggregate` models `self.collection.aggregate`.  The Python body builds the
pipeline, assigns `search_results = self.collection.aggregate(pipeline)`,
and then ends: there is no `return` statement, so the function returns
`None` — the computed cursor is discarded, and neither the `min_score`
filtering nor any result list ever leaves the function. -/
def search (cfg : SearchConfig) (aggregate : SearchPipeline → List ScoredDoc)
    (queryEmbedding : List ℚ) : Option (List ScoredDoc) :=
  let pipeline : SearchPipeline :=
    { index := cfg.vectorIndexName, queryVector := queryEmbedding,
      numCandidates := cfg.numCandidates, limit := cfg.vectorLimit }
  let _searchResults := aggregate pipeline
  none

/-! ## `core/views.py` — the `ask` view

The view is modelled from the point where the JSON body has been parsed
(malformed JSON is answered with a 400 before any state of interest):
`queryField` is `user_request.get("query")`, i.e. `none` when the key is
missing.  External collaborators live in `AskEnv`.  Alongside the HTTP
response, the model returns the trace of calls made to the external
embedding / search / generation collaborators, in order. -/

/-- One call to an external collaborator made while serving `ask`. -/
inductive ExtCall
  | embedContent (content : String)
  | vectorSearch (queryVector : List ℚ)
  | generateContent (prompt : String)
deriving Repr, DecidableEq

/-- The outcome of the `ask` view: a `JsonResponse` with an `"error"` body, a
200 `JsonResponse` with answer and `sources` (title/score pairs), or an
exception that escapes the view uncaught. -/
inductive AskResult
  | errorResponse (status : Nat) (message : String)
  | answerResponse (answer : String) (sources : List (String × ℚ))
  | unhandled (e : PyErr)
deriving Repr, DecidableEq

/-- External collaborators of the `ask` view. -/
structure AskEnv where
  dbOk : Bool := true
  collections : List String := []
  collectionName : String := "knowledgeChunks"
  statsOk : Bool := true
  searchCfg : SearchConfig := { vectorIndexName := "vector_index" }
  embedProvider : String → Except String (List ℚ)
  sqrtOf : ℚ → ℚ
  aggregate : SearchPipeline → List ScoredDoc
  genText : String → Except String (Option String)

/-- Python `s[:n]`. -/
def pyTake (n : Nat) (s : String) : String := String.mk (s.toList.take n)

/-- Python `round(x, 4)` (ℚ model; Python breaks exact ties to even, which no
value below exercises). -/
def round4 (q : ℚ) : ℚ := ((round (q * 10000) : ℤ) : ℚ) / 10000

/-- The prompt template of STEP 12 (English text abbreviated; only its shape
matters to the claims). -/
def buildPrompt (userQuery context : String) : String :=
  "You are a helpful assistant. Use the provided context to answer the question.\nIf the answer is not in the context, state that you do not have enough information.\n\nQuestion:\n"
    ++ userQuery ++ "\n\nContext:\n" ++ context ++ "\n"

/-- STEPs 9–15 of `ask`: build context and sources from the matching
documents, short-circuit on zero matches, otherwise prompt the generation
provider.  (Unreachable in the current code — the view returns at STEP 7 on
the `EmbeddingService.normalize_vector` `AttributeError`, see `ask`; and
`search` would return `None` in any case — but embedded for
completeness.) -/
def askAnswer (env : AskEnv) (userQuery : String)
    (matchingDocs : List ScoredDoc) (calls : List ExtCall) :
    AskResult × List ExtCall :=
  let withText := matchingDocs.filter (fun d => d.text.getD "" ≠ "")
  let contextChunks := withText.map (fun d =>
    "Title: " ++ d.title.getD "" ++ "\nText: " ++ pyTake 800 (d.text.getD ""))
  let sources := withText.map (fun d => (d.title.getD "", round4 (d.score.getD 0)))
  if matchingDocs.length = 0 then
    (.answerResponse "I could not find relevant information in the knowledge base." [],
      calls)
  else
    let context := String.intercalate "\n\n---\n\n" contextChunks
    let prompt := buildPrompt userQuery context
    match env.genText prompt with
    | .error e =>
      (.errorResponse 502 ("Gemini AI call failed: " ++ e),
        calls ++ [.generateContent prompt])
    | .ok rawText =>
      let answerText := pyStrip (rawText.getD "")
      let answerText := if answerText = "" then "No answer generated." else answerText
      (.answerResponse answerText sources, calls ++ [.generateContent prompt])

/-- Embedding of the `ask` view (STEPs 2–15).

* STEP 2: `user_query = user_request.get("query")` then `user_query.strip()`
  — when the key is absent this is `None.strip()`, which raises an
  `AttributeError` that no `except` in the view catches.
* STEPs 4–6: database connection, collection lookup, collection stats.
* STEP 7: the query is embedded (`genai.embed_content`); then the view
  calls `EmbeddingService.normalize_vector(raw_embedding)`.  But
  `normalize_vector` is a *module-level* function of
  `embedding_service.py`, not an attribute of the `EmbeddingService` class,
  so this attribute access raises an `AttributeError` inside the STEP 7
  `try`; its `except` answers with the 502
  `"Embedding generation failed"` response.  (The Python error text,
  apostrophes elided, is
  `type object EmbeddingService has no attribute normalize_vector`.)
* STEPs 8–15 (the search stage and answer assembly, embedded above as
  `search` and `askAnswer`) are therefore unreachable from `ask`: the
  embed-success branch returns at STEP 7 and the search engine is never
  invoked. -/
def ask (env : AskEnv) (queryField : Option String) :
    AskResult × List ExtCall :=
  match queryField with
  | none => (.unhandled (.attributeError "NoneType object has no attribute strip"), [])
  | some q =>
    let userQuery := pyStrip q
    if !env.dbOk then (.errorResponse 500 "MongoDB connection failed", [])
    else if !(env.collections.contains env.collectionName) then
      (.errorResponse 404 ("Collection " ++ env.collectionName ++ " not found."), [])
    else if !env.statsOk then
      (.errorResponse 500 "Failed to get collection stats", [])
    else
      match env.embedProvider userQuery with
      | .error e =>
        (.errorResponse 502 ("Embedding generation failed: " ++ e),
          [.embedContent userQuery])
      | .ok _rawEmbedding =>
        (.errorResponse 502
          "Embedding generation failed: type object EmbeddingService has no attribute normalize_vector",
          [.embedContent userQuery])

/-- The intermediate value `title = first_sentence[:max_length].strip()`
computed by the truncation branch of `generate_title`, named so the theorems
below can speak about trimming relative to it. -/
def truncatedBase (text : List Char) (maxLength : Nat) : List Char :=
  stripChars ((firstSentenceOf (collapseWS (stripChars text))).take maxLength)

/-! ## Concrete test fixtures -/

/-- A concrete `ask` environment: database reachable, collection present,
stats readable, embedding provider returning a (degenerate) vector, search
store empty, generation provider down (never reached). -/
def askEnvA : AskEnv where
  collections := ["knowledgeChunks"]
  embedProvider := fun _ => .ok []
  sqrtOf := fun _ => 0
  aggregate := fun _ => []
  genText := fun _ => .error "unavailable"

/-- A concrete storage environment in which persisting chunks 0 and 1
succeeds and persisting chunk 2 fails. -/
def envFailAt2 : StoreEnv where
  saveOk := fun j => decide (j < 2)

/-! # Theorems -/

/-! ## Helper lemmas -/

theorem squaredSum_foldl (l : List ℚ) (a : ℚ) :
    l.foldl (fun acc v => acc + v * v) a = a + (l.map (fun v => v * v)).sum := by
  induction l generalizing a with
  | nil => simp
  | cons x xs ih => simp [ih, add_assoc]

theorem squaredSum_eq_sum (l : List ℚ) :
    squaredSum l = (l.map (fun v => v * v)).sum := by
  simpa using squaredSum_foldl l 0

theorem squaredSum_map_div (l : List ℚ) (c : ℚ) :
    squaredSum (l.map (fun v => v / c)) = squaredSum l / (c * c) := by
  simp only [squaredSum_eq_sum, List.map_map, Function.comp_def]
  have h : ∀ v : ℚ, v / c * (v / c) = v * v * (c * c)⁻¹ := by
    intro v
    rw [div_mul_div_comm, div_eq_mul_inv]
  simp only [h]
  rw [List.sum_map_mul_right, div_eq_mul_inv]

/-! ## C1: `search` and the min-score contract -/

/-- C1: the claim states that `search` returns a sequence of results, each
with score at least `min_score`, in non-increasing score order and of length
at most the configured limit.  The code cannot satisfy this: the body of
`VectorSearchService.search` has no `return` statement, so for every store
and every query vector the call returns `None` — no result sequence at all,
and the configured `minScore` is never consulted. -/
theorem c1_search_returns_no_result_list (cfg : SearchConfig)
    (aggregate : SearchPipeline → List ScoredDoc) (queryEmbedding : List ℚ) :
    search cfg aggregate queryEmbedding = none :=
  rfl

/-! ## C2: the search stage of `ask` -/

/-- C2 counterexample: the claim says every request reaching the search
stage is answered by the `"Vector search failed"` error branch.  In the
fully healthy concrete environment `askEnvA` a request is instead answered
by the 502 `"Embedding generation failed"` branch — the `AttributeError`
raised by the `EmbeddingService.normalize_vector` attribute access at
STEP 7 — with no vector-search call in its trace, and its response is not
a 500 `"Vector search failed"` response. -/
theorem c2_no_vector_search_failed_response :
    ask askEnvA (some "What are the courses?") =
      (.errorResponse 502
        "Embedding generation failed: type object EmbeddingService has no attribute normalize_vector",
        [.embedContent "What are the courses?"]) ∧
    (∀ msg, (ask askEnvA (some "What are the courses?")).1 ≠
      .errorResponse 500 msg) := by
  refine ⟨rfl, ?_⟩
  intro msg hcontra
  rw [show (ask askEnvA (some "What are the courses?")).1 =
    AskResult.errorResponse 502
      "Embedding generation failed: type object EmbeddingService has no attribute normalize_vector"
    from rfl] at hcontra
  simp at hcontra

/-- C2 amended: `VectorSearchService.search` evaluates the aggregation
pipeline but returns `None` (its body contains no `return` statement).  In
the `ask` flow, however, no request ever reaches the search stage: the
attribute access `EmbeddingService.normalize_vector` at STEP 7 raises an
`AttributeError` (`normalize_vector` is a module-level function, not a
class attribute), caught by the embedding `try`/`except`, so every request
that passes the database, collection and stats checks and whose embedding
provider call succeeds is answered by the 502
`"Embedding generation failed"` error branch — never with search results,
and with no call to the search engine in its trace. -/
theorem c2_ask_embedding_stage_always_fails (env : AskEnv) (q : String)
    (raw : List ℚ) (hdb : env.dbOk = true)
    (hcoll : env.collections.contains env.collectionName = true)
    (hstats : env.statsOk = true)
    (hembed : env.embedProvider (pyStrip q) = .ok raw) :
    (∀ cfg aggregate qe,
      search cfg aggregate qe = (none : Option (List ScoredDoc))) ∧
    ask env (some q) =
      (.errorResponse 502
        "Embedding generation failed: type object EmbeddingService has no attribute normalize_vector",
        [.embedContent (pyStrip q)]) ∧
    (∀ answer sources calls,
      ask env (some q) ≠ (.answerResponse answer sources, calls)) ∧
    (∀ d, ExtCall.vectorSearch d ∉ (ask env (some q)).2) := by
  have h2 : ask env (some q) =
      (.errorResponse 502
        "Embedding generation failed: type object EmbeddingService has no attribute normalize_vector",
        [.embedContent (pyStrip q)]) := by
    have hmem : env.collectionName ∈ env.collections := by simpa using hcoll
    simp [ask, hdb, hcoll, hmem, hstats, hembed]
  refine ⟨fun _ _ _ => rfl, h2, ?_, ?_⟩
  · intro answer sources calls hcontra
    rw [h2] at hcontra
    simp at hcontra
  · intro d hd
    rw [h2] at hd
    simp at hd

/-- Witness for C2 (amended) in the concrete environment `askEnvA`. -/
theorem c2_ask_embedding_stage_always_fails_witness :
    (∀ cfg aggregate qe,
      search cfg aggregate qe = (none : Option (List ScoredDoc))) ∧
    ask askEnvA (some "What are the courses?") =
      (.errorResponse 502
        "Embedding generation failed: type object EmbeddingService has no attribute normalize_vector",
        [.embedContent "What are the courses?"]) ∧
    (∀ answer sources calls,
      ask askEnvA (some "What are the courses?") ≠
        (.answerResponse answer sources, calls)) ∧
    (∀ d, ExtCall.vectorSearch d ∉ (ask askEnvA (some "What are the courses?")).2) :=
  c2_ask_embedding_stage_always_fails askEnvA "What are the courses?" [] rfl
    (by decide) rfl rfl

/-! ## C7: `ask` and empty queries -/

theorem stripChars_eq_nil (l : List Char) (h : ∀ c ∈ l, pyWhitespace c) :
    stripChars l = [] := by
  have h1 : l.dropWhile pyWhitespace = [] := List.dropWhile_eq_nil_iff.mpr h
  simp [stripChars, h1]

/-- C7 counterexample: the claim says a whitespace-only query is answered
with a validation error without calling the embedding provider, the search
engine, or the generation provider.  Instead, in the concrete all-healthy
environment `askEnvA`, the view strips `"   "` to the empty string, calls
the embedding provider with that empty string, and is answered by the 502
`"Embedding generation failed"` branch (the
`EmbeddingService.normalize_vector` `AttributeError` at STEP 7) — not a
validation error. -/
theorem c7_empty_query_counterexample :
    ask askEnvA (some "   ") =
      (.errorResponse 502
        "Embedding generation failed: type object EmbeddingService has no attribute normalize_vector",
        [.embedContent ""]) ∧
    ExtCall.embedContent "" ∈ (ask askEnvA (some "   ")).2 := by
  exact ⟨rfl, by decide⟩

/-- C7 amended: the `ask` view performs no query validation at all.
A request whose JSON body lacks the `query` key raises an uncaught
`AttributeError` (`None.strip()`) before any collaborator is called — it is
not answered with a validation error.  A present but whitespace-only query
strips to the empty string and is not rejected: the embedding provider is
called with the empty string, and (the provider succeeding) the request is
answered by the 502 `"Embedding generation failed"` branch — the
`EmbeddingService.normalize_vector` `AttributeError` at STEP 7 — never by a
400 validation response. -/
theorem c7_ask_performs_no_query_validation (env : AskEnv) (q : String)
    (hws : ∀ c ∈ q.toList, pyWhitespace c)
    (hdb : env.dbOk = true)
    (hcoll : env.collections.contains env.collectionName = true)
    (hstats : env.statsOk = true)
    (raw : List ℚ) (hembed : env.embedProvider "" = .ok raw) :
    (∀ env2 : AskEnv, ask env2 none =
      (.unhandled (.attributeError "NoneType object has no attribute strip"), [])) ∧
    pyStrip q = "" ∧
    ask env (some q) =
      (.errorResponse 502
        "Embedding generation failed: type object EmbeddingService has no attribute normalize_vector",
        [.embedContent ""]) ∧
    ExtCall.embedContent "" ∈ (ask env (some q)).2 ∧
    (∀ msg, (ask env (some q)).1 ≠ .errorResponse 400 msg) := by
  have hstrip : pyStrip q = "" := by
    have h1 : stripChars q.toList = [] := stripChars_eq_nil q.toList hws
    unfold pyStrip
    rw [h1]
  have hmem : env.collectionName ∈ env.collections := by simpa using hcoll
  have h2 : ask env (some q) =
      (.errorResponse 502
        "Embedding generation failed: type object EmbeddingService has no attribute normalize_vector",
        [.embedContent ""]) := by
    simp [ask, hdb, hmem, hstats, hstrip, hembed]
  refine ⟨fun _ => rfl, hstrip, h2, ?_, ?_⟩
  · rw [h2]
    simp
  · intro msg hcontra
    rw [h2] at hcontra
    simp at hcontra

/-- Witness for C7 (amended) at the whitespace-only query `"   "` in the
concrete environment `askEnvA`. -/
theorem c7_ask_performs_no_query_validation_witness :
    (∀ env2 : AskEnv, ask env2 none =
      (.unhandled (.attributeError "NoneType object has no attribute strip"), [])) ∧
    pyStrip "   " = "" ∧
    ask askEnvA (some "   ") =
      (.errorResponse 502
        "Embedding generation failed: type object EmbeddingService has no attribute normalize_vector",
        [.embedContent ""]) ∧
    ExtCall.embedContent "" ∈ (ask askEnvA (some "   ")).2 ∧
    (∀ msg, (ask askEnvA (some "   ")).1 ≠ .errorResponse 400 msg) :=
  c7_ask_performs_no_query_validation askEnvA "   " (by decide) rfl (by decide)
    rfl [] rfl

/-! ## C6: `normalize_vector` -/

/-- C6: with `length` the exact nonnegative square root of the sum of squares
(the model of `math.sqrt(squared_sum)`), `normalize_vector`
(1) preserves the length of the vector; (2) on a vector of non-zero Euclidean
norm divides each component by the norm and yields a vector of squared
Euclidean norm exactly 1; (3) on a vector of zero norm yields the all-zero
vector of the same length without dividing; and (4) maps `[3, 4]` to
`[0.6, 0.8]`. -/
theorem c6_normalize_vector_spec (values : List ℚ) (len : ℚ)
    (_hnn : 0 ≤ len) (hsq : len * len = squaredSum values) :
    (normalize_vector values len).length = values.length ∧
    (squaredSum values ≠ 0 →
      normalize_vector values len = values.map (fun v => v / len) ∧
      squaredSum (normalize_vector values len) = 1) ∧
    (squaredSum values = 0 →
      normalize_vector values len = values.map (fun _ => 0)) ∧
    normalize_vector [3, 4] 5 = [3 / 5, 4 / 5] := by
  refine ⟨?_, ?_, ?_, by norm_num [normalize_vector]⟩
  · unfold normalize_vector
    split <;> simp
  · intro hne
    have hlen : len ≠ 0 := by
      intro h0
      rw [h0, mul_zero] at hsq
      exact hne hsq.symm
    constructor
    · simp [normalize_vector, hlen]
    · rw [normalize_vector, if_neg hlen, squaredSum_map_div, hsq, div_self hne]
  · intro h0
    have hlen : len = 0 := by
      have := hsq.trans h0
      rcases mul_self_eq_zero.mp this with h
      exact h
    simp [normalize_vector, hlen]

/-- Witness for C6 at `values = [3, 4]`, `len = 5`. -/
theorem c6_normalize_vector_spec_witness :
    (0 : ℚ) ≤ 5 ∧ (5 : ℚ) * 5 = squaredSum [3, 4] ∧
    ((normalize_vector [3, 4] 5).length = ([3, 4] : List ℚ).length ∧
    (squaredSum [3, 4] ≠ 0 →
      normalize_vector [3, 4] 5 = ([3, 4] : List ℚ).map (fun v => v / 5) ∧
      squaredSum (normalize_vector [3, 4] 5) = 1) ∧
    (squaredSum ([3, 4] : List ℚ) = 0 →
      normalize_vector [3, 4] 5 = ([3, 4] : List ℚ).map (fun _ => 0)) ∧
    normalize_vector [3, 4] 5 = [3 / 5, 4 / 5]) :=
  ⟨by norm_num, by norm_num [squaredSum], c6_normalize_vector_spec [3, 4] 5 (by norm_num) (by norm_num [squaredSum])⟩

/-! ## C4: `save_chunks` validation -/

/-- C4 counterexample: the claim says every call in which `titles` is
provided with `len(titles) ≠ len(chunks)` fails with a validation error and
performs no mutation.  But the guard is `if titles and len(titles) !=
len(chunks)`, and an empty list is falsy in Python: providing `titles = []`
with one chunk (lengths 0 ≠ 1) does not fail — the call succeeds with
status 200 and inserts the chunk (with no title). -/
theorem c4_empty_titles_counterexample :
    save_chunks ({} : StoreEnv) [] ["a"] [[1]] "pdf" "Handbook" (some []) none =
      (((200 : Nat), { saved_count := some 1 }),
        [{ chunkId := 0, title := none, text := "a", embedding := [1],
           sourceType := "pdf", sourceName := "Handbook", sourceUrl := none }]) := by
  rfl

/-- C4 amended: `save_chunks` fails fast with a 400 validation error and
leaves the store untouched (no deletion, no insertion) when `chunks` or
`embeddings` is empty, when their lengths differ, or when `titles` is
provided *non-empty* with a length differing from `chunks` (an empty titles
list is treated as absent, not validated). -/
theorem c4_save_chunks_validation (env : StoreEnv) (store : List ChunkRecord)
    (chunks : List String) (embeddings : List (List ℚ))
    (sourceType sourceName : String) (titles : Option (List String))
    (sourceUrl : Option String) :
    (chunks = [] ∨ embeddings = [] →
      save_chunks env store chunks embeddings sourceType sourceName titles sourceUrl =
        (((400 : Nat), { error := some "chunks and embeddings cannot be empty" }),
          store)) ∧
    (chunks.length ≠ embeddings.length →
      (save_chunks env store chunks embeddings sourceType sourceName titles sourceUrl).1.1 = 400 ∧
      (save_chunks env store chunks embeddings sourceType sourceName titles sourceUrl).2 = store) ∧
    (∀ ts, titles = some ts → ts ≠ [] → ts.length ≠ chunks.length →
      (save_chunks env store chunks embeddings sourceType sourceName titles sourceUrl).1.1 = 400 ∧
      (save_chunks env store chunks embeddings sourceType sourceName titles sourceUrl).2 = store) := by
  refine ⟨?_, ?_, ?_⟩
  · intro h
    rw [save_chunks, if_pos h]
  · intro hlen
    by_cases hempty : chunks = [] ∨ embeddings = []
    · rw [save_chunks, if_pos hempty]
      exact ⟨rfl, rfl⟩
    · rw [save_chunks, if_neg hempty, if_pos hlen]
      exact ⟨rfl, rfl⟩
  · intro ts hts htsne htslen
    subst hts
    by_cases hempty : chunks = [] ∨ embeddings = []
    · rw [save_chunks, if_pos hempty]
      exact ⟨rfl, rfl⟩
    · by_cases hlen : chunks.length ≠ embeddings.length
      · rw [save_chunks, if_neg hempty, if_pos hlen]
        exact ⟨rfl, rfl⟩
      · have hguard : pyTruthyList (some ts) = true ∧
            ((some ts : Option (List String)).getD []).length ≠ chunks.length :=
          ⟨by simp [pyTruthyList, htsne], by simpa using htslen⟩
        rw [save_chunks, if_neg hempty, if_neg hlen, if_pos hguard]
        exact ⟨rfl, rfl⟩

/-- Witness for C4 (amended) at the spec's own scenario: 3 chunks and 2
embeddings fail with a 400 length-mismatch error and no mutation. -/
theorem c4_save_chunks_validation_witness :
    (save_chunks ({} : StoreEnv) [] ["a", "b", "c"] [[1], [2]] "pdf" "Handbook"
        none none).1.1 = 400 ∧
    (save_chunks ({} : StoreEnv) [] ["a", "b", "c"] [[1], [2]] "pdf" "Handbook"
        none none).2 = [] :=
  (c4_save_chunks_validation ({} : StoreEnv) [] ["a", "b", "c"] [[1], [2]]
    "pdf" "Handbook" none none).2.1 (by decide)

/-! ## C5: `save_chunks` partial-failure behaviour -/

/-- The insert loop, started at index `i`, stops at the first failing index:
if saves succeed at the `k` offsets before `i + k` and fail at `i + k`
(with `i + k` within the loop bound), it returns status 500 with
`saved_count = i + k`, and the store holds exactly the previously persisted
records followed by the `k` records saved before the failure, in input
order. -/
theorem insertLoop_stops_at_failure (env : StoreEnv) (mk : Nat → ChunkRecord) :
    ∀ (k remaining i : Nat) (store : List ChunkRecord),
      k < remaining →
      (∀ j, j < k → env.saveOk (i + j) = true) →
      env.saveOk (i + k) = false →
      insertLoop env mk remaining i store =
        (((500 : Nat),
          { error := some ("Failed to save chunk " ++ toString (i + k)),
            saved_count := some (i + k) }),
          store ++ (List.range' i k).map mk) := by
  intro k
  induction k with
  | zero =>
    intro remaining i store hk _ hfail
    obtain ⟨r, rfl⟩ : ∃ r, remaining = r + 1 :=
      ⟨remaining - 1, (Nat.succ_pred_eq_of_pos hk).symm⟩
    rw [insertLoop, if_neg (by simpa using hfail)]
    simp
  | succ k ih =>
    intro remaining i store hk hok hfail
    obtain ⟨r, rfl⟩ : ∃ r, remaining = r + 1 :=
      ⟨remaining - 1, (Nat.succ_pred_eq_of_pos (Nat.lt_of_le_of_lt (Nat.zero_le _) hk)).symm⟩
    have hok0 : env.saveOk i = true := by simpa using hok 0 (Nat.succ_pos k)
    rw [insertLoop, if_pos hok0]
    have hrec := ih r (i + 1) (store ++ [mk i]) (Nat.lt_of_succ_lt_succ hk)
      (fun j hj => by simpa [Nat.add_assoc, Nat.add_comm 1 j] using hok (j + 1) (Nat.succ_lt_succ hj))
      (by simpa [Nat.add_assoc, Nat.add_comm 1 k] using hfail)
    rw [hrec]
    rw [List.range'_succ]
    simp [Nat.add_assoc, Nat.add_comm 1 k]

/-- C5: during the insertion step of `save_chunks` (validation passed),
chunks are persisted in input order; if persisting chunk `i` fails after
chunks `0..i-1` succeeded, the operation stops immediately — chunks after
`i` are never attempted — and returns status 500 carrying
`saved_count = i`, with the store holding the (possibly delete-filtered)
previous contents plus exactly the first `i` new records, none rolled
back. -/
theorem c5_save_chunks_stops_at_first_failure (env : StoreEnv)
    (store : List ChunkRecord) (chunks : List String)
    (embeddings : List (List ℚ)) (sourceType sourceName : String)
    (titles : Option (List String)) (sourceUrl : Option String) (i : Nat)
    (hne : chunks ≠ []) (hlen : chunks.length = embeddings.length)
    (htl : pyTruthyList titles = false ∨ (titles.getD []).length = chunks.length)
    (hi : i < chunks.length)
    (hok : ∀ j, j < i → env.saveOk j = true)
    (hfail : env.saveOk i = false) :
    save_chunks env store chunks embeddings sourceType sourceName titles sourceUrl =
      (((500 : Nat),
        { error := some ("Failed to save chunk " ++ toString i),
          saved_count := some i }),
        (if env.deleteOk then
          store.filter (fun r => !matchesIdentity sourceUrl sourceType sourceName r)
        else store) ++
          (List.range' 0 i).map
            (mkRecord env.nowMicros chunks embeddings titles sourceType sourceName sourceUrl)) := by
  have hne2 : ¬(chunks = [] ∨ embeddings = []) := by
    rintro (h | h)
    · exact hne h
    · rw [h] at hlen
      simp at hlen
      exact hne hlen
  have hlen2 : ¬chunks.length ≠ embeddings.length := by simpa using hlen
  have hguard : ¬(pyTruthyList titles ∧ (titles.getD []).length ≠ chunks.length) := by
    rcases htl with h | h
    · rintro ⟨h1, _⟩
      rw [h] at h1
      exact Bool.false_ne_true h1
    · rintro ⟨_, h2⟩
      exact h2 h
  rw [save_chunks, if_neg hne2, if_neg hlen2, if_neg hguard]
  have h := insertLoop_stops_at_failure env
    (mkRecord env.nowMicros chunks embeddings titles sourceType sourceName sourceUrl)
    i chunks.length 0
    (if env.deleteOk = true then
      store.filter (fun r => !matchesIdentity sourceUrl sourceType sourceName r)
    else store)
    hi (fun j hj => by simpa using hok j hj) (by simpa using hfail)
  simpa using h

/-- Witness for C5: with persistence failing first at chunk 2 of 3
(`envFailAt2`), `save_chunks` reports `saved_count = 2` and the store holds
exactly the first two records. -/
theorem c5_save_chunks_stops_at_first_failure_witness :
    save_chunks envFailAt2 [] ["a", "b", "c"] [[1], [2], [3]] "pdf" "Handbook"
        none none =
      (((500 : Nat),
        { error := some "Failed to save chunk 2", saved_count := some 2 }),
        [{ chunkId := 0, title := none, text := "a", embedding := [1],
           sourceType := "pdf", sourceName := "Handbook", sourceUrl := none },
         { chunkId := 1, title := none, text := "b", embedding := [2],
           sourceType := "pdf", sourceName := "Handbook", sourceUrl := none }]) :=
  c5_save_chunks_stops_at_first_failure envFailAt2 [] ["a", "b", "c"]
    [[1], [2], [3]] "pdf" "Handbook" none none 2 (by decide) (by decide)
    (Or.inl rfl) (by decide)
    (fun j hj => by simp only [envFailAt2]; exact decide_eq_true hj) (by decide)

/-! ## C3: the `chunks_created` field of `process_pdf` -/

/-- C3: the claim (and the function's own docstring) say `chunks_created` is
an integer equal to the number of chunks actually saved.  The code instead
assigns `chunks_created` the *entire* `(status_code, response_dict)` tuple
returned by `save_chunks`.  Concretely: a successful one-chunk ingestion of
`"Hello world."` (splitter yields one segment, provider and store healthy,
one chunk saved) produces `chunks_created = (200, {"saved_count": 1})`, not
the integer `1`. -/
theorem c3_chunks_created_is_the_save_chunks_tuple :
    process_pdf (fun t => [t]) id (fun _ _ => .ok []) (fun _ => 0) ⟨[]⟩
        ({} : StoreEnv) [] "Hello world." "Handbook" =
      .ok ({ chunks_created := ((200 : Nat), { saved_count := some 1 }),
             source_name := "Handbook" },
        [{ chunkId := 0, title := some "Hello world.", text := "Hello world.",
           embedding := [], sourceType := "pdf", sourceName := "Handbook",
           sourceUrl := none }]) := by
  rfl

/-! ## C8: propagation of Chunker errors through `process_pdf` -/

/-- C8: the claim says `process_pdf` propagates a Chunker failure unchanged.
It does not: when splitting yields zero segments, `chunk_with_titles`
returns the error dict `{"error": "No chunks generated from text"}`, and the
tuple unpacking `chunks, titles = ...` in `process_pdf` then raises a
different error — `ValueError: not enough values to unpack (expected 2, got
1)` — instead of surfacing the Chunker's error value. -/
theorem c8_chunker_error_not_propagated_unchanged :
    chunk_with_titles (fun _ => []) "Hello world." =
      .errorDict "No chunks generated from text" ∧
    process_pdf (fun _ => []) id (fun _ _ => .ok []) (fun _ => 0) ⟨[]⟩
        ({} : StoreEnv) [] "Hello world." "Handbook" =
      .error (.valueError "not enough values to unpack (expected 2, got 1)") := by
  exact ⟨rfl, rfl⟩

/-! ## C10: the embedding cache -/

/-- C10: if the provider succeeds on `text`, then embedding the same text
twice makes at most one provider call in total: the first call makes at most
one, the second makes none — it is served from the cache and returns exactly
the vector stored there; and a repeat embed after `clear_cache` calls the
provider again (exactly one call). -/
theorem c10_embed_single_cache_behaviour (hashText : String → String)
    (provider : String → String → Except String (List ℚ)) (sqrtOf : ℚ → ℚ)
    (st : EmbState) (text taskType : String) (raw : List ℚ)
    (hok : provider taskType text = .ok raw) :
    (embed_single hashText provider sqrtOf st text taskType).providerCalls ≤ 1 ∧
    (embed_single hashText provider sqrtOf
      (embed_single hashText provider sqrtOf st text taskType).state
      text taskType).providerCalls = 0 ∧
    (∃ v,
      (embed_single hashText provider sqrtOf st text
        taskType).state.cache.lookup (hashText text) = some v ∧
      (embed_single hashText provider sqrtOf
        (embed_single hashText provider sqrtOf st text taskType).state
        text taskType).result = .ok v) ∧
    (embed_single hashText provider sqrtOf
      (clear_cache
        (embed_single hashText provider sqrtOf
          (embed_single hashText provider sqrtOf st text taskType).state
          text taskType).state)
      text taskType).providerCalls = 1 := by
  have hclear : ∀ s : EmbState,
      (embed_single hashText provider sqrtOf (clear_cache s) text
        taskType).providerCalls = 1 := by
    intro s
    rw [embed_single]
    simp only [clear_cache, List.lookup_nil]
    rw [hok]
  have hcached : ∀ (s : EmbState) (v : List ℚ),
      s.cache.lookup (hashText text) = some v →
      embed_single hashText provider sqrtOf s text taskType = ⟨.ok v, s, 0⟩ := by
    intro s v hv
    rw [embed_single]
    simp only [hv]
  rcases hlook : st.cache.lookup (hashText text) with _ | v
  · -- cache miss: the provider is called once and the result cached
    have h1 : embed_single hashText provider sqrtOf st text taskType =
        ⟨.ok (normalize_vector raw (sqrtOf (squaredSum raw))),
          ⟨(hashText text, normalize_vector raw (sqrtOf (squaredSum raw))) :: st.cache⟩, 1⟩ := by
      rw [embed_single]
      simp only [hlook]
      rw [hok]
    have h1s : (embed_single hashText provider sqrtOf st text taskType).state.cache.lookup
        (hashText text) = some (normalize_vector raw (sqrtOf (squaredSum raw))) := by
      rw [h1]
      simp [List.lookup]
    have h2 := hcached _ _ h1s
    refine ⟨by simp [h1], by rw [h2], ⟨_, h1s, by rw [h2]⟩, ?_⟩
    rw [h2]
    exact hclear _
  · -- cache hit on the first call already
    have h1 := hcached st v hlook
    have h1s : (embed_single hashText provider sqrtOf st text taskType).state.cache.lookup
        (hashText text) = some v := by
      rw [h1]
      exact hlook
    have h2 := hcached _ _ h1s
    refine ⟨by simp [h1], by rw [h2], ⟨v, h1s, by rw [h2]⟩, ?_⟩
    rw [h2]
    exact hclear _

/-- Witness for C10: identity hash, provider returning the empty vector,
empty initial cache. -/
theorem c10_embed_single_cache_behaviour_witness :
    (embed_single id (fun _ _ => .ok []) (fun _ => 0) ⟨[]⟩ "hi"
      "retrieval_document").providerCalls ≤ 1 ∧
    (embed_single id (fun _ _ => .ok []) (fun _ => 0)
      (embed_single id (fun _ _ => .ok []) (fun _ => 0) ⟨[]⟩ "hi"
        "retrieval_document").state
      "hi" "retrieval_document").providerCalls = 0 ∧
    (∃ v,
      (embed_single id (fun _ _ => .ok []) (fun _ => 0) ⟨[]⟩ "hi"
        "retrieval_document").state.cache.lookup (id "hi") = some v ∧
      (embed_single id (fun _ _ => .ok []) (fun _ => 0)
        (embed_single id (fun _ _ => .ok []) (fun _ => 0) ⟨[]⟩ "hi"
          "retrieval_document").state
        "hi" "retrieval_document").result = .ok v) ∧
    (embed_single id (fun _ _ => .ok []) (fun _ => 0)
      (clear_cache
        (embed_single id (fun _ _ => .ok []) (fun _ => 0)
          (embed_single id (fun _ _ => .ok []) (fun _ => 0) ⟨[]⟩ "hi"
            "retrieval_document").state
          "hi" "retrieval_document").state)
      "hi" "retrieval_document").providerCalls = 1 :=
  c10_embed_single_cache_behaviour id (fun _ _ => .ok []) (fun _ => 0) ⟨[]⟩
    "hi" "retrieval_document" [] rfl

/-! ## C9: `generate_title` -/

theorem stripChars_length_le (l : List Char) :
    (stripChars l).length ≤ l.length := by
  have h1 := (List.dropWhile_suffix (l := l) pyWhitespace).length_le
  have h2 := (List.dropWhile_suffix
    (l := (l.dropWhile pyWhitespace).reverse) pyWhitespace).length_le
  simp only [stripChars, List.length_reverse] at *
  omega

theorem rfindSpaceAux_spec (l : List Char) :
    ∀ (i : Nat) (best : Int),
      rfindSpaceAux l i best = best ∨
      ∃ j, j < l.length ∧ l.get? j = some ' ' ∧
        rfindSpaceAux l i best = Int.ofNat (i + j) := by
  induction l with
  | nil => intro i best; exact Or.inl rfl
  | cons c rest ih =>
    intro i best
    by_cases hc : c = ' '
    · rcases ih (i + 1) (Int.ofNat i) with h | ⟨j, hj, hsp, heq⟩
      · refine Or.inr ⟨0, by simp, by simp [hc], ?_⟩
        rw [rfindSpaceAux, if_pos hc, h]
        simp
      · refine Or.inr ⟨j + 1, by simpa using Nat.succ_lt_succ hj, by simpa using hsp, ?_⟩
        rw [rfindSpaceAux, if_pos hc, heq]
        congr 1
        omega
    · rcases ih (i + 1) best with h | ⟨j, hj, hsp, heq⟩
      · left
        rw [rfindSpaceAux, if_neg hc, h]
      · refine Or.inr ⟨j + 1, by simpa using Nat.succ_lt_succ hj, by simpa using hsp, ?_⟩
        rw [rfindSpaceAux, if_neg hc, heq]
        congr 1
        omega

theorem rfindSpace_spec (l : List Char) :
    rfindSpace l = -1 ∨
    ∃ j, j < l.length ∧ l.get? j = some ' ' ∧ rfindSpace l = Int.ofNat j := by
  rcases rfindSpaceAux_spec l 0 (-1) with h | ⟨j, hj, hsp, heq⟩
  · exact Or.inl h
  · exact Or.inr ⟨j, hj, hsp, by simpa using heq⟩

/-- Unfolding of `generate_title` in the truncation case. -/
theorem generate_title_of_long (text : List Char) (maxLength : Nat)
    (htext : text ≠ []) (hclean : collapseWS (stripChars text) ≠ [])
    (hlong : maxLength < (firstSentenceOf (collapseWS (stripChars text))).length) :
    generate_title text maxLength =
      (if (maxLength / 2 : Int) < rfindSpace (truncatedBase text maxLength) then
        (truncatedBase text maxLength).take
          (rfindSpace (truncatedBase text maxLength)).toNat
      else truncatedBase text maxLength) ++ "...".toList := by
  unfold generate_title truncatedBase
  rw [if_neg htext]
  simp only [if_neg hclean, if_pos hlong]

set_option maxRecDepth 8000 in
/-- C9 counterexample: the claim bounds the truncated title by 50
characters.  For the 200-character terminator-free sentence made of 48
letters, a space, and 151 letters, the code trims to the space at index 48
(which is past the midpoint 25) and appends the three-character ellipsis:
the result is 51 characters long. -/
theorem c9_title_length_counterexample :
    50 < (generate_title (List.replicate 48 'a' ++ ' ' :: List.replicate 151 'b') 50).length ∧
    (generate_title (List.replicate 48 'a' ++ ' ' :: List.replicate 151 'b') 50).length = 51 := by
  constructor
  · decide
  · decide

/-- C9 amended: `generate_title` is a pure function such that (1) empty
input yields `"Untitled"`; (2) whitespace-only input yields `"Untitled"`;
(3) `"Hello world. This is a test."` yields `"Hello world."`; and (4) for
every input whose whitespace-collapsed first sentence exceeds `maxLength`
characters, the result is the truncated base (`first_sentence[:maxLength]`
stripped, itself at most `maxLength` characters) — trimmed back to the last
space boundary only when that boundary lies past the midpoint
`maxLength / 2` — followed by the ellipsis marker `"..."`, so the result is
at most `maxLength + 3` characters (not `maxLength`, as the ellipsis is
appended after truncation). -/
theorem c9_generate_title_spec :
    generate_title [] 50 = "Untitled".toList ∧
    (∀ text : List Char, (∀ c ∈ text, pyWhitespace c) →
      generate_title text 50 = "Untitled".toList) ∧
    generate_title "Hello world. This is a test.".toList 50 = "Hello world.".toList ∧
    (∀ (text : List Char) (maxLength : Nat),
      maxLength < (firstSentenceOf (collapseWS (stripChars text))).length →
      (generate_title text maxLength).length ≤ maxLength + 3 ∧
      ∃ core, generate_title text maxLength = core ++ "...".toList ∧
        core.length ≤ maxLength ∧
        (core = truncatedBase text maxLength ∨
          ((maxLength / 2 : Int) < rfindSpace (truncatedBase text maxLength) ∧
            (truncatedBase text maxLength).get?
              (rfindSpace (truncatedBase text maxLength)).toNat = some ' ' ∧
            core = (truncatedBase text maxLength).take
              (rfindSpace (truncatedBase text maxLength)).toNat))) := by
  refine ⟨rfl, ?_, by decide, ?_⟩
  · intro text hws
    by_cases htext : text = []
    · subst htext
      rfl
    · have h1 : stripChars text = [] := stripChars_eq_nil text hws
      unfold generate_title
      rw [if_neg htext, h1]
      rfl
  · intro text maxLength hlong
    have htext : text ≠ [] := by
      rintro rfl
      rw [show firstSentenceOf (collapseWS (stripChars ([] : List Char))) = []
        from rfl] at hlong
      exact absurd hlong (by simp)
    have hclean : collapseWS (stripChars text) ≠ [] := by
      intro h
      rw [h, show firstSentenceOf [] = [] from rfl] at hlong
      exact absurd hlong (by simp)
    have heq := generate_title_of_long text maxLength htext hclean hlong
    have hB : (truncatedBase text maxLength).length ≤ maxLength := by
      unfold truncatedBase
      refine le_trans (stripChars_length_le _) ?_
      simp only [List.length_take]
      omega
    by_cases hsp : (maxLength / 2 : Int) < rfindSpace (truncatedBase text maxLength)
    · rw [if_pos hsp] at heq
      have hget : (truncatedBase text maxLength).get?
          (rfindSpace (truncatedBase text maxLength)).toNat = some ' ' := by
        rcases rfindSpace_spec (truncatedBase text maxLength) with h | ⟨j, _, hj2, hj3⟩
        · rw [h] at hsp
          have h0 : (0 : Int) ≤ (maxLength : Int) / 2 :=
            Int.ediv_nonneg (Int.ofNat_nonneg maxLength) (by norm_num)
          omega
        · rw [hj3]
          simpa using hj2
      have hlen : ((truncatedBase text maxLength).take
          (rfindSpace (truncatedBase text maxLength)).toNat).length ≤ maxLength := by
        simp only [List.length_take]
        omega
      refine ⟨?_, _, heq, hlen, Or.inr ⟨hsp, hget, rfl⟩⟩
      rw [heq]
      simp only [List.length_append]
      have h3 : ("...".toList).length = 3 := rfl
      omega
    · rw [if_neg hsp] at heq
      refine ⟨?_, _, heq, hB, Or.inl rfl⟩
      rw [heq]
      simp only [List.length_append]
      have h3 : ("...".toList).length = 3 := rfl
      omega

set_option maxRecDepth 8000 in
/-- Witness for C9 (amended): the 200-character space-free sentence of
`'a'`s is truncated to the 50-character stripped base (no space boundary to
trim to) plus the ellipsis. -/
theorem c9_generate_title_spec_witness :
    (generate_title (List.replicate 200 'a') 50).length ≤ 50 + 3 ∧
    ∃ core, generate_title (List.replicate 200 'a') 50 = core ++ "...".toList ∧
      core.length ≤ 50 ∧
      (core = truncatedBase (List.replicate 200 'a') 50 ∨
        ((50 / 2 : Int) < rfindSpace (truncatedBase (List.replicate 200 'a') 50) ∧
          (truncatedBase (List.replicate 200 'a') 50).get?
            (rfindSpace (truncatedBase (List.replicate 200 'a') 50)).toNat = some ' ' ∧
          core = (truncatedBase (List.replicate 200 'a') 50).take
            (rfindSpace (truncatedBase (List.replicate 200 'a') 50)).toNat)) :=
  c9_generate_title_spec.2.2.2 (List.replicate 200 'a') 50 (by decide)

end ChatBot
